import Mathlib

/-!
Shallow embedding of the cluster-autoscaler-operator reconciliation logic.

The data model mirrors the Kubernetes API types used by the source
(`ClusterAutoscaler`, `Deployment`, pod specs, object metadata); Go maps for
labels/annotations are embedded as association lists, Go `int32` values as
`Int` (no arithmetic is performed on them, so no modular reduction arises),
and Go pointer-optionality (`*T` fields) as `Option`.

Namespace `autoscaler` embeds `src/pkg/autoscaler/handler.go`
(`Handle`, `updateAutoscaler`, `autoscalerDeployment`, `autoscalerPodSpec`,
`addOwnerRefToObject`, `asOwner`, `RegisterOperatorMetrics`).  Store
interactions (`sdk.Create` / `sdk.Get` / `sdk.Update`) are modelled by an
oracle `Store` fixing each call's outcome, and every attempted side effect is
recorded in an explicit `Effect` trace.

Namespace `clusterautoscaler` embeds the test package: the fixture
`NewClusterAutoscaler` is translated from the test source, while
`AutoscalerArgs` and `Reconciler.AvailableAndUpdated` themselves are not under
`src/` (only their tests are) and are modelled from the spec, pinned at the
behaviour the tests demand.
-/

deriving instance DecidableEq for Except

/-- Kubernetes TypeMeta: apiVersion + kind. -/
structure TypeMeta where
  apiVersion : String := ""
  kind : String := ""
deriving DecidableEq

/-- Kubernetes OwnerReference, as built by `asOwner`. -/
structure OwnerReference where
  apiVersion : String := ""
  kind : String := ""
  name : String := ""
  uid : String := ""
  controller : Option Bool := none
deriving DecidableEq

/-- Kubernetes ObjectMeta; label/annotation maps as association lists.
The Go field `Namespace` is spelled `ns` (`namespace` is reserved in Lean). -/
structure ObjectMeta where
  name : String := ""
  ns : String := ""
  labels : List (String × String) := []
  annotations : List (String × String) := []
  generation : Int := 0
  uid : String := ""
  ownerReferences : List OwnerReference := []
deriving DecidableEq

/-- v1alpha1.ResourceRange (Min/Max, int32). -/
structure ResourceRange where
  min : Int
  max : Int
deriving DecidableEq

/-- v1alpha1.GPULimit (Type/Min/Max). -/
structure GPULimit where
  type : String
  min : Int
  max : Int
deriving DecidableEq

/-- v1alpha1.ResourceLimits: optional global ceilings and per-resource ranges. -/
structure ResourceLimits where
  maxNodesTotal : Option Int := none
  cores : Option ResourceRange := none
  memory : Option ResourceRange := none
  gpus : List GPULimit := []
deriving DecidableEq

/-- v1alpha1.ScaleDownConfig. -/
structure ScaleDownConfig where
  enabled : Bool := false
  delayAfterAdd : Option String := none
  unneededTime : Option String := none
deriving DecidableEq

/-- v1alpha1.ClusterAutoscalerSpec: every field is pointer-optional in Go. -/
structure ClusterAutoscalerSpec where
  maxPodGracePeriod : Option Int := none
  podPriorityThreshold : Option Int := none
  resourceLimits : Option ResourceLimits := none
  scaleDown : Option ScaleDownConfig := none
deriving DecidableEq

/-- The configuration resource watched by the operator. -/
structure ClusterAutoscaler where
  typeMeta : TypeMeta := {}
  metadata : ObjectMeta := {}
  spec : ClusterAutoscalerSpec := {}
deriving DecidableEq

/-- corev1.Container restricted to the fields the builder sets. -/
structure Container where
  name : String := ""
  image : String := ""
  command : List String := []
  args : List String := []
deriving DecidableEq

/-- corev1.Toleration restricted to the fields the builder sets; the
operator constant `TolerationOpExists` is the string "Exists". -/
structure Toleration where
  key : String := ""
  operator : String := ""
deriving DecidableEq

/-- corev1.PodSpec restricted to the fields the builder sets. -/
structure PodSpec where
  serviceAccountName : String := ""
  containers : List Container := []
  tolerations : List Toleration := []
deriving DecidableEq

/-- corev1.PodTemplateSpec: template metadata plus pod spec. -/
structure PodTemplateSpec where
  metadata : ObjectMeta := {}
  spec : PodSpec := {}
deriving DecidableEq

/-- metav1.LabelSelector (match labels only). -/
structure LabelSelector where
  matchLabels : List (String × String) := []
deriving DecidableEq

/-- appsv1.DeploymentSpec restricted to the fields the source touches. -/
structure DeploymentSpec where
  replicas : Option Int := none
  selector : Option LabelSelector := none
  template : PodTemplateSpec := {}
deriving DecidableEq

/-- appsv1.DeploymentStatus fields used by the tests/predicate. -/
structure DeploymentStatus where
  observedGeneration : Int := 0
  updatedReplicas : Int := 0
  replicas : Int := 0
  availableReplicas : Int := 0
deriving DecidableEq

/-- appsv1.Deployment. -/
structure Deployment where
  typeMeta : TypeMeta := {}
  metadata : ObjectMeta := {}
  spec : DeploymentSpec := {}
  status : DeploymentStatus := {}
deriving DecidableEq

/-- Operator Config (process-wide settings): release version, resource name,
namespace, cloud provider. -/
structure Config where
  releaseVersion : String := ""
  name : String := ""
  ns : String := ""
  cloudProvider : String := ""
deriving DecidableEq

namespace clusterautoscaler

/-- Modelled from the spec: "each optional field present in the configuration
resource ... maps to exactly one command-line flag if and only if the
corresponding configuration field is set (non-nil)".  One optional field,
one flag: the flag name (with trailing `=`) concatenated with the formatted
value when the field is set, nothing when it is unset. -/
def optFlag {α : Type} (fl : String) (fmt : α → String) (o : Option α) : List String :=
  match o with
  | none => []
  | some v => [fl ++ fmt v]

/-- `min:max` rendering of a resource range (as in `--cores-total=16:32`). -/
def fmtRange (r : ResourceRange) : String :=
  toString r.min ++ ":" ++ toString r.max

/-- Modelled from the spec: the per-field portion of the builder's argument
list (the function `AutoscalerArgs` itself is not under `src/`; flag names and
value formats are those the repository's `TestAutoscalerArgs` demands). -/
def optionalArgs (s : ClusterAutoscalerSpec) : List String :=
  optFlag "--scale-down-delay-after-add=" id (s.scaleDown.bind fun sd => sd.delayAfterAdd) ++
  optFlag "--scale-down-unneeded-time=" id (s.scaleDown.bind fun sd => sd.unneededTime) ++
  optFlag "--expendable-pods-priority-cutoff=" toString s.podPriorityThreshold ++
  optFlag "--max-graceful-termination-sec=" toString s.maxPodGracePeriod ++
  optFlag "--cores-total=" fmtRange (s.resourceLimits.bind fun rl => rl.cores) ++
  optFlag "--memory-total=" fmtRange (s.resourceLimits.bind fun rl => rl.memory) ++
  ((s.resourceLimits.map fun rl => rl.gpus).getD []).map
    (fun g => "--gpu-total=" ++ g.type ++ ":" ++ toString g.min ++ ":" ++ toString g.max) ++
  optFlag "--max-nodes-total=" toString (s.resourceLimits.bind fun rl => rl.maxNodesTotal)

/-- Modelled from the spec: the Desired-State Builder's argument list —
per-field flags for each set optional field, and "namespace and
cloud-provider flags are always emitted from process-wide settings". -/
def AutoscalerArgs (ca : ClusterAutoscaler) (cfg : Config) : List String :=
  optionalArgs ca.spec ++
  ["--namespace=" ++ cfg.ns, "--cloud-provider=" ++ cfg.cloudProvider]

/-- The test fixture `NewClusterAutoscaler`, translated from the test source. -/
def NewClusterAutoscaler : ClusterAutoscaler :=
  { typeMeta := { kind := "ClusterAutoscaler", apiVersion := "autoscaling.openshift.io/v1alpha1" }
    metadata := { name := "test", ns := "test" }
    spec :=
      { maxPodGracePeriod := some 60
        podPriorityThreshold := some (-10)
        resourceLimits := some
          { maxNodesTotal := some 100
            cores := some { min := 16, max := 32 }
            memory := some { min := 32, max := 64 }
            gpus := [{ type := "nvidia.com/gpu", min := 4, max := 8 }] }
        scaleDown := some
          { enabled := true
            delayAfterAdd := some "60s"
            unneededTime := some "10s" } } }

/-- Outcome of fetching one object from the store: found, not found, or a
transport/storage failure. -/
inductive GetOutcome (α : Type)
  | found (a : α)
  | notFound
  | failure (msg : String)
deriving DecidableEq

/-- The reconciler's client, modelled as the store contents plus injectable
transport failures for each fetch. -/
structure Client where
  autoscalers : List ClusterAutoscaler := []
  deployments : List Deployment := []
  caFailure : Option String := none
  depFailure : Option String := none
deriving DecidableEq

/-- Fetch the ClusterAutoscaler with the configured name. -/
def getClusterAutoscaler (c : Client) (nm : String) : GetOutcome ClusterAutoscaler :=
  match c.caFailure with
  | some m => .failure m
  | none =>
    match c.autoscalers.find? (fun a => a.metadata.name == nm) with
    | some a => .found a
    | none => .notFound

/-- Fetch the Deployment with the given namespace and name. -/
def getDeployment (c : Client) (ns nm : String) : GetOutcome Deployment :=
  match c.depFailure with
  | some m => .failure m
  | none =>
    match c.deployments.find? (fun d => d.metadata.ns == ns && d.metadata.name == nm) with
    | some d => .found d
    | none => .notFound

/-- The annotation key carrying the release version. -/
def releaseVersionAnnotation : String := "release.openshift.io/version"

/-- Modelled from the spec: `Reconciler.AvailableAndUpdated` is not under
`src/` (only `TestAvailableAndUpdated` is).  Per the spec's availability
contract the predicate is true when the managed deployment exists under the
derived name in the configured namespace, its release-version annotation
equals the configured release version, and it has at least one available
replica; any such mismatch is (false, nil) and only a fetch failure is an
error.  One point is pinned by the repository's test rather than the spec's
words: when no ClusterAutoscaler with the configured name exists, the
predicate returns (true, nil) (test case 2), not false as the spec asserts. -/
def AvailableAndUpdated (c : Client) (cfg : Config) : Except String Bool :=
  match getClusterAutoscaler c cfg.name with
  | .failure m => .error m
  | .notFound => .ok true
  | .found ca =>
    match getDeployment c cfg.ns ("cluster-autoscaler-" ++ ca.metadata.name) with
    | .failure m => .error m
    | .notFound => .ok false
    | .found dep =>
      if dep.metadata.annotations.lookup releaseVersionAnnotation ≠ some cfg.releaseVersion then
        .ok false
      else if dep.status.availableReplicas < 1 then
        .ok false
      else
        .ok true

/-- Test fixture `dep1` from `TestAvailableAndUpdated`. -/
def dep1 : Deployment :=
  { metadata :=
      { name := "cluster-autoscaler-test", ns := "test"
        annotations := [("release.openshift.io/version", "test-1")]
        generation := 1 }
    status := { observedGeneration := 1, updatedReplicas := 1, replicas := 1, availableReplicas := 1 } }

/-- Test fixture `dep2` from `TestAvailableAndUpdated` (stale version annotation). -/
def dep2 : Deployment :=
  { metadata :=
      { name := "cluster-autoscaler-test", ns := "test"
        annotations := [("release.openshift.io/version", "test-2")]
        generation := 1 }
    status := { observedGeneration := 1, updatedReplicas := 1, replicas := 1, availableReplicas := 1 } }

/-- Test fixture `cfg1`. -/
def cfg1 : Config := { releaseVersion := "test-1", name := "test", ns := "test" }

/-- Test fixture `cfg2`. -/
def cfg2 : Config := { releaseVersion := "test-2", name := "test", ns := "test" }

/-- Test fixture `cfg3` (a name matching no ClusterAutoscaler). -/
def cfg3 : Config := { releaseVersion := "test-2", name := "test2", ns := "test" }

/-- The fake client of `newFakeReconciler(ca, tc.d)`: holds the fixture
ClusterAutoscaler and one deployment. -/
def testClient (d : Deployment) : Client :=
  { autoscalers := [NewClusterAutoscaler], deployments := [d] }

/-- The Config used by `TestAutoscalerArgs`. -/
def argsConfig : Config := { ns := "test", cloudProvider := "testProvider" }

/-- `includeString` from the test source: exact membership. -/
def includeString (list : List String) (item : String) : Bool :=
  list.any fun s => s == item

/-- `includesStringWithPrefix` from the test source: some entry starts with
the given text. -/
def includesStringWithPrefix (list : List String) (pre : String) : Bool :=
  list.any fun s => pre.data.isPrefixOf s.data

/-- Number of arguments that carry the given flag (the flag string, `=`
included, is a prefix of the argument). -/
def flagCount (args : List String) (fl : String) : Nat :=
  (args.filter fun a => fl.data.isPrefixOf a.data).length



end clusterautoscaler

namespace autoscaler

def caImage : String := "quay.io/bison/cluster-autoscaler:a554b4f5"

def criticalPod : String := "scheduler.alpha.kubernetes.io/critical-pod"

def caServiceAccount : String := "cluster-autoscaler"

/-- Modelled from the spec: handler.go calls a one-argument `AutoscalerArgs`
that is not under `src/`; per spec §4.1 it emits one flag per set optional
field of the configuration resource (this revision takes no settings bag, so
no settings-derived flags appear). -/
def AutoscalerArgs (ca : ClusterAutoscaler) : List String :=
  clusterautoscaler.optionalArgs ca.spec

/-- `autoscalerPodSpec` from handler.go. -/
def autoscalerPodSpec (ca : ClusterAutoscaler) : PodSpec :=
  let args := AutoscalerArgs ca
  { serviceAccountName := caServiceAccount
    containers :=
      [{ name := "cluster-autoscaler"
         image := caImage
         command := ["/cluster-autoscaler"]
         args := args }]
    tolerations := [{ key := "CriticalAddonsOnly", operator := "Exists" }] }

/-- `asOwner` from handler.go: an OwnerReference pointing at the
ClusterAutoscaler resource, with Controller = &true. -/
def asOwner (ca : ClusterAutoscaler) : OwnerReference :=
  { apiVersion := ca.typeMeta.apiVersion
    kind := ca.typeMeta.kind
    name := ca.metadata.name
    uid := ca.metadata.uid
    controller := some true }

/-- `addOwnerRefToObject` from handler.go, instantiated at Deployment:
appends the owner reference to the object's list. -/
def addOwnerRefToObject (obj : Deployment) (ownerRef : OwnerReference) : Deployment :=
  { obj with metadata.ownerReferences := obj.metadata.ownerReferences ++ [ownerRef] }

/-- `autoscalerDeployment` from handler.go. -/
def autoscalerDeployment (ca : ClusterAutoscaler) : Deployment :=
  let replicas : Int := 1
  let deploymentName := "cluster-autoscaler-" ++ ca.metadata.name
  let labels := [("cluster-autoscaler", ca.metadata.name), ("app", "cluster-autoscaler")]
  let annotations := [(criticalPod, "")]
  let podSpec := autoscalerPodSpec ca
  let dep : Deployment :=
    { typeMeta := { apiVersion := "apps/v1", kind := "Deployment" }
      metadata := { name := deploymentName, ns := ca.metadata.ns }
      spec :=
        { replicas := some replicas
          selector := some { matchLabels := labels }
          template :=
            { metadata := { labels := labels, annotations := annotations }
              spec := podSpec } } }
  addOwnerRefToObject dep (asOwner ca)

/-- One attempted side effect of the handler: a store call, or an increment
of the operator-errors counter (the latter so that claims about the metrics
counter are expressible; the handler in fact never emits it). -/
inductive Effect
  | create (d : Deployment)
  | get (d : Deployment)
  | update (d : Deployment)
  | incrementErrorCounter
deriving DecidableEq

/-- Outcome oracle for `sdk.Create`: success, AlreadyExists, or another error. -/
inductive CreateResult
  | ok
  | alreadyExists
  | otherError (msg : String)
deriving DecidableEq

/-- Outcome oracle for `sdk.Get`: the fetched deployment, or an error. -/
inductive GetResult
  | ok (d : Deployment)
  | err (msg : String)
deriving DecidableEq

/-- Outcome oracle for `sdk.Update`. -/
inductive UpdateResult
  | ok
  | err (msg : String)
deriving DecidableEq

/-- The store oracle: fixes the outcome of each sdk call made by one
reconciliation pass. -/
structure Store where
  createResult : CreateResult := .ok
  getResult : GetResult := .ok {}
  updateResult : UpdateResult := .ok
deriving DecidableEq

/-- The object carried by an sdk.Event: a ClusterAutoscaler or anything
else (the handler's type switch only distinguishes these). -/
inductive EventObject
  | clusterAutoscaler (ca : ClusterAutoscaler)
  | other (kind : String)
deriving DecidableEq

/-- sdk.Event: the carried object plus the deletion flag. -/
structure Event where
  object : EventObject
  deleted : Bool
deriving DecidableEq

/-- Prometheus counter handle (name + help text). -/
structure Counter where
  name : String
  help : String
deriving DecidableEq

/-- The Metrics bag held by the handler. -/
structure Metrics where
  operatorErrors : Counter
deriving DecidableEq

/-- The Handler: carries the metrics bag (which `Handle` never touches). -/
structure Handler where
  metrics : Metrics
deriving DecidableEq

/-- `NewHandler` from handler.go. -/
def NewHandler (m : Metrics) : Handler :=
  { metrics := m }

/-- The guard expression of handler.go line 73 as Go evaluates it:
`reflect.DeepEqual(dep.Spec.Template.Spec, podSpec)` receives a
`corev1.PodSpec` VALUE on the left and a `*corev1.PodSpec` POINTER on the
right (`autoscalerPodSpec` returns a pointer, dereferenced only in the
assignment on line 74, not in the comparison), and `reflect.DeepEqual` is
false whenever its operands have distinct dynamic types — so the comparison
is constantly false, regardless of the two pod specs' contents. -/
def deepEqualSpecWithPtr (_v : PodSpec) (_p : PodSpec) : Bool := false

/-- `updateAutoscaler` from handler.go: rebuild the deployment key, fetch the
existing one, and whenever the line-73 guard fires — which is always, because
`deepEqualSpecWithPtr` is constantly false — write back the fetched
deployment with only its pod-spec field replaced by the freshly built pod
spec.  Returns the Go error (as `Except`) and the trace of attempted store
calls. -/
def updateAutoscaler (store : Store) (ca : ClusterAutoscaler) :
    Except String Unit × List Effect :=
  let dep := autoscalerDeployment ca
  match store.getResult with
  | .err msg =>
    (.error ("failed to get autoscaler deployment: " ++ msg), [.get dep])
  | .ok fetched =>
    let podSpec := autoscalerPodSpec ca
    if !deepEqualSpecWithPtr fetched.spec.template.spec podSpec then
      let updated := { fetched with spec.template.spec := podSpec }
      match store.updateResult with
      | .ok => (.ok (), [.get dep, .update updated])
      | .err msg =>
        (.error ("failed to update autoscaler deployment: " ++ msg),
         [.get dep, .update updated])
    else
      (.ok (), [.get dep])

/-- `Handler.Handle` from handler.go: type-switch on the event object; ignore
deletes; build and create the deployment; AlreadyExists falls through to
`updateAutoscaler`; any other create error is wrapped and returned. -/
def Handler.Handle (_h : Handler) (store : Store) (event : Event) :
    Except String Unit × List Effect :=
  match event.object with
  | .clusterAutoscaler ca =>
    if event.deleted then
      (.ok (), [])
    else
      let dep := autoscalerDeployment ca
      match store.createResult with
      | .ok => (.ok (), [.create dep])
      | .alreadyExists =>
        let r := updateAutoscaler store ca
        (r.1, .create dep :: r.2)
      | .otherError msg =>
        (.error ("failed to create autoscaler deployment: " ++ msg), [.create dep])
  | .other _ => (.ok (), [])

/-- The counter created by `RegisterOperatorMetrics` (names verbatim from the
source, which kept the scaffolded memcached name). -/
def operatorErrorsCounter : Counter :=
  { name := "memcached_operator_reconcile_errors_total"
    help := "Number of errors that occurred while reconciling the memcached deployment" }

/-- A metrics registry: the set of registered collector names (registration
fails on a duplicate, as prometheus.Register does). -/
structure Registry where
  registered : List String := []
deriving DecidableEq

/-- `RegisterOperatorMetrics` from handler.go: create the operator-errors
counter, register it, and return the Metrics bag. -/
def RegisterOperatorMetrics (r : Registry) : Except String (Metrics × Registry) :=
  if operatorErrorsCounter.name ∈ r.registered then
    .error "duplicate metrics collector registration attempted"
  else
    .ok ({ operatorErrors := operatorErrorsCounter },
         { registered := operatorErrorsCounter.name :: r.registered })

/-- A minimal configuration resource used as concrete input by witnesses. -/
def caEx : ClusterAutoscaler := { metadata := { name := "test", ns := "test" } }

/-- A metrics bag as produced by a successful registration. -/
def metricsEx : Metrics := { operatorErrors := operatorErrorsCounter }

/-- The handler built by `NewHandler` over `metricsEx`. -/
def handlerEx : Handler := NewHandler metricsEx


/-- A fetched deployment whose pod spec drifted (different service account). -/
def fetchedDrift : Deployment :=
  { autoscalerDeployment caEx with spec.template.spec.serviceAccountName := "drifted" }

/-- Store oracle handing back `fetchedDrift` on get. -/
def storeDrift : Store :=
  { createResult := .alreadyExists, getResult := .ok fetchedDrift }



end autoscaler

namespace clusterautoscaler

/-- C3 counterexample (test case 2): with a configured name matching no
ClusterAutoscaler, no workload with the expected derived name exists, yet the
predicate returns (true, nil) — not false as the claim demands for a wrong
name / missing workload. -/
theorem availableAndUpdated_missing_ca_counterexample :
    AvailableAndUpdated (testClient dep1) cfg3 = .ok true ∧
    getDeployment (testClient dep1) cfg3.ns ("cluster-autoscaler-" ++ cfg3.name) =
      .notFound ∧
    getClusterAutoscaler (testClient dep1) cfg3.name = .notFound := by
  refine ⟨by decide, by decide, by decide⟩

/-- C3 amended: errors arise only from injected fetch failures; when the
configured name matches NO ClusterAutoscaler the predicate is (true, nil);
when it matches one, a missing deployment under the derived name gives
(false, nil), and a found deployment gives (ok b) with b true exactly when
the release-version annotation matches and at least one replica is
available — every mismatch is a false with nil error. -/
theorem availableAndUpdated_amended (c : Client) (cfg : Config) :
    (∀ m, AvailableAndUpdated c cfg = .error m →
        c.caFailure = some m ∨ c.depFailure = some m) ∧
    (getClusterAutoscaler c cfg.name = .notFound →
        AvailableAndUpdated c cfg = .ok true) ∧
    (∀ ca, getClusterAutoscaler c cfg.name = .found ca →
      getDeployment c cfg.ns ("cluster-autoscaler-" ++ ca.metadata.name) = .notFound →
        AvailableAndUpdated c cfg = .ok false) ∧
    (∀ ca dep, getClusterAutoscaler c cfg.name = .found ca →
      getDeployment c cfg.ns ("cluster-autoscaler-" ++ ca.metadata.name) = .found dep →
        ∃ b, AvailableAndUpdated c cfg = .ok b ∧
          (b = true ↔
            (dep.metadata.annotations.lookup releaseVersionAnnotation =
                some cfg.releaseVersion ∧
             1 ≤ dep.status.availableReplicas))) := by
  refine ⟨?_, ?_, ?_, ?_⟩
  · intro m hm
    cases hcf : c.caFailure with
    | some x =>
      left
      have hx : AvailableAndUpdated c cfg = .error x := by
        simp [AvailableAndUpdated, getClusterAutoscaler, hcf]
      rw [hx] at hm
      obtain rfl : x = m := by simpa using hm
      rfl
    | none =>
      cases hdf : c.depFailure with
      | some y =>
        cases hf : List.find? (fun a => a.metadata.name == cfg.name) c.autoscalers with
        | some a =>
          right
          have hy : AvailableAndUpdated c cfg = .error y := by
            simp [AvailableAndUpdated, getClusterAutoscaler, getDeployment, hcf, hdf, hf]
          rw [hy] at hm
          obtain rfl : y = m := by simpa using hm
          rfl
        | none =>
          have ht : AvailableAndUpdated c cfg = .ok true := by
            simp [AvailableAndUpdated, getClusterAutoscaler, hcf, hf]
          rw [ht] at hm
          simp at hm
      | none =>
        exfalso
        cases hf : List.find? (fun a => a.metadata.name == cfg.name) c.autoscalers with
        | none =>
          have ht : AvailableAndUpdated c cfg = .ok true := by
            simp [AvailableAndUpdated, getClusterAutoscaler, hcf, hf]
          rw [ht] at hm
          simp at hm
        | some a =>
          cases hfd : List.find?
              (fun d => d.metadata.ns == cfg.ns &&
                d.metadata.name == "cluster-autoscaler-" ++ a.metadata.name)
              c.deployments with
          | none =>
            have hfa : AvailableAndUpdated c cfg = .ok false := by
              simp [AvailableAndUpdated, getClusterAutoscaler, getDeployment, hcf, hdf, hf, hfd]
            rw [hfa] at hm
            simp at hm
          | some dep =>
            by_cases hv : List.lookup releaseVersionAnnotation dep.metadata.annotations =
                some cfg.releaseVersion
            · by_cases hr : dep.status.availableReplicas < 1 <;>
                simp [AvailableAndUpdated, getClusterAutoscaler, getDeployment,
                  hcf, hdf, hf, hfd, hv, hr] at hm
            · simp [AvailableAndUpdated, getClusterAutoscaler, getDeployment,
                hcf, hdf, hf, hfd, hv] at hm
  · intro hca
    simp [AvailableAndUpdated, hca]
  · intro ca hca hdep
    simp [AvailableAndUpdated, hca, hdep]
  · intro ca dep hca hdep
    by_cases hv : dep.metadata.annotations.lookup releaseVersionAnnotation =
        some cfg.releaseVersion
    · by_cases hr : dep.status.availableReplicas < 1
      · exact ⟨false, by simp [AvailableAndUpdated, hca, hdep, hv, hr],
          by simp [hv]; omega⟩
      · exact ⟨true, by simp [AvailableAndUpdated, hca, hdep, hv, hr],
          by simp [hv]; omega⟩
    · exact ⟨false, by simp [AvailableAndUpdated, hca, hdep, hv], by simp [hv]⟩

/-- Witness for C3's amended theorem: the deployment-missing branch at the
test's case 3. -/
theorem availableAndUpdated_amended_witness :
    AvailableAndUpdated (testClient {}) cfg1 = .ok false :=
  (availableAndUpdated_amended (testClient {}) cfg1).2.2.1 NewClusterAutoscaler
    (by decide) (by decide)

end clusterautoscaler

namespace autoscaler

/-- C1: on a non-deleted ClusterAutoscaler event, Handle first attempts to
create the built deployment; an AlreadyExists failure falls through to the
update path (the result and remaining trace are exactly `updateAutoscaler`'s),
and any other create failure returns the wrapped error with no further store
call. -/
theorem handle_create_first_then_branch (h : Handler) (store : Store) (ca : ClusterAutoscaler) :
    ((Handler.Handle h store { object := .clusterAutoscaler ca, deleted := false }).2.head? =
        some (.create (autoscalerDeployment ca))) ∧
    (store.createResult = .alreadyExists →
      Handler.Handle h store { object := .clusterAutoscaler ca, deleted := false } =
        ((updateAutoscaler store ca).1,
         .create (autoscalerDeployment ca) :: (updateAutoscaler store ca).2)) ∧
    (∀ m, store.createResult = .otherError m →
      Handler.Handle h store { object := .clusterAutoscaler ca, deleted := false } =
        (.error ("failed to create autoscaler deployment: " ++ m),
         [.create (autoscalerDeployment ca)])) := by
  refine ⟨?_, ?_, ?_⟩
  · cases hc : store.createResult <;> simp [Handler.Handle, hc]
  · intro hc
    simp [Handler.Handle, hc]
  · intro m hc
    simp [Handler.Handle, hc]

/-- Witness for C1 at a concrete failing create. -/
theorem handle_create_first_then_branch_witness :
    Handler.Handle handlerEx { createResult := .otherError "boom" }
        { object := .clusterAutoscaler caEx, deleted := false } =
      (.error ("failed to create autoscaler deployment: " ++ "boom"),
       [.create (autoscalerDeployment caEx)]) :=
  (handle_create_first_then_branch handlerEx { createResult := .otherError "boom" } caEx).2.2
    "boom" rfl

/-- C5: if the update path's fetch fails, the whole operation is exactly the
wrapped get error plus the attempted get — in particular no update (and no
create) is attempted, so the stored workload is untouched. -/
theorem update_fetch_failure_atomic (store : Store) (ca : ClusterAutoscaler) (m : String)
    (hg : store.getResult = .err m) :
    updateAutoscaler store ca =
      (.error ("failed to get autoscaler deployment: " ++ m),
       [.get (autoscalerDeployment ca)]) ∧
    (∀ u, Effect.update u ∉ (updateAutoscaler store ca).2) ∧
    (∀ d, Effect.create d ∉ (updateAutoscaler store ca).2) := by
  refine ⟨?_, ?_, ?_⟩ <;> simp [updateAutoscaler, hg]

/-- Witness for C5 at a concrete failing fetch. -/
theorem update_fetch_failure_atomic_witness :
    updateAutoscaler { createResult := .alreadyExists, getResult := .err "gone" } caEx =
      (.error ("failed to get autoscaler deployment: " ++ "gone"),
       [.get (autoscalerDeployment caEx)]) :=
  (update_fetch_failure_atomic { createResult := .alreadyExists, getResult := .err "gone" }
    caEx "gone" rfl).1

/-- C6: a deleted-flagged ClusterAutoscaler event returns nil with an empty
effect trace: no create, no get, no update. -/
theorem handle_deleted_noop (h : Handler) (store : Store) (ca : ClusterAutoscaler) :
    Handler.Handle h store { object := .clusterAutoscaler ca, deleted := true } =
      (.ok (), []) := rfl

/-- C8: the Desired-State Builder is a total pure function of the
configuration resource (and settings); in this embedding it is a Lean
function, so two applications to the same input are definitionally equal
(byte-identical argument lists and identical pod specs), and no error outcome
exists in its type. -/
theorem builder_deterministic (ca : ClusterAutoscaler) (cfg : Config) :
    clusterautoscaler.AutoscalerArgs ca cfg = clusterautoscaler.AutoscalerArgs ca cfg ∧
    AutoscalerArgs ca = AutoscalerArgs ca ∧
    autoscalerPodSpec ca = autoscalerPodSpec ca ∧
    autoscalerDeployment ca = autoscalerDeployment ca :=
  ⟨rfl, rfl, rfl, rfl⟩

/-- C9: any deployment written by the update path is exactly the fetched
deployment with only `spec.template.spec` replaced by the freshly built pod
spec; its type meta, object metadata, replicas, selector, template metadata
and status are the fetched ones, unchanged. -/
theorem update_frame (store : Store) (ca : ClusterAutoscaler) (fetched u : Deployment)
    (hg : store.getResult = .ok fetched)
    (hu : Effect.update u ∈ (updateAutoscaler store ca).2) :
    u = { fetched with spec.template.spec := autoscalerPodSpec ca } ∧
    u.typeMeta = fetched.typeMeta ∧
    u.metadata = fetched.metadata ∧
    u.spec.replicas = fetched.spec.replicas ∧
    u.spec.selector = fetched.spec.selector ∧
    u.spec.template.metadata = fetched.spec.template.metadata ∧
    u.status = fetched.status := by
  unfold updateAutoscaler at hu
  rw [hg] at hu
  cases hur : store.updateResult <;> rw [hur] at hu <;>
    simp [deepEqualSpecWithPtr] at hu <;>
    subst hu <;> exact ⟨rfl, rfl, rfl, rfl, rfl, rfl, rfl⟩

/-- Witness for C9 at a concrete drifted deployment. -/
theorem update_frame_witness :
    ({ fetchedDrift with spec.template.spec := autoscalerPodSpec caEx } : Deployment).metadata =
        fetchedDrift.metadata ∧
    ({ fetchedDrift with spec.template.spec := autoscalerPodSpec caEx } : Deployment).status =
        fetchedDrift.status :=
  ⟨(update_frame storeDrift caEx fetchedDrift
      { fetchedDrift with spec.template.spec := autoscalerPodSpec caEx } rfl
      (by decide)).2.2.1,
   (update_frame storeDrift caEx fetchedDrift
      { fetchedDrift with spec.template.spec := autoscalerPodSpec caEx } rfl
      (by decide)).2.2.2.2.2.2⟩

/-- C10: an event carrying anything other than a ClusterAutoscaler returns
nil with an empty effect trace. -/
theorem handle_non_ca_noop (h : Handler) (store : Store) (k : String) (del : Bool) :
    Handler.Handle h store { object := .other k, deleted := del } = (.ok (), []) := rfl

/-- C2: code bug, shown at the claim's own idempotence scenario.  The store
holds exactly the deployment the builder produces, so the existing pod spec
IS the freshly built pod spec (first conjunct) — yet the update path still
issues an update (second conjunct): handler.go line 73 hands
`reflect.DeepEqual` a pod-spec value and a pod-spec pointer, which compare
unequal for being of distinct types, so the guard meant to skip the write
("no update is issued when specs are already equal") never does, and a second
reconciliation of an unchanged resource is never a no-op. -/
theorem update_unchanged_still_updates :
    (autoscalerDeployment caEx).spec.template.spec = autoscalerPodSpec caEx ∧
    updateAutoscaler
        { createResult := .alreadyExists,
          getResult := .ok (autoscalerDeployment caEx) } caEx =
      (.ok (), [.get (autoscalerDeployment caEx),
        .update (autoscalerDeployment caEx)]) := by
  refine ⟨rfl, by decide⟩

/-- C7 counterexample: a reconciliation that fails (create fails with a
non-AlreadyExists error) returns a non-nil error, yet its effect trace
contains no increment of the error counter — the handler never touches the
metrics it carries. -/
theorem error_counter_unincremented_counterexample :
    (Handler.Handle handlerEx { createResult := .otherError "boom" }
        { object := .clusterAutoscaler caEx, deleted := false }).1 =
      .error ("failed to create autoscaler deployment: " ++ "boom") ∧
    Effect.incrementErrorCounter ∉
      (Handler.Handle handlerEx { createResult := .otherError "boom" }
        { object := .clusterAutoscaler caEx, deleted := false }).2 := by
  refine ⟨rfl, by decide⟩

/-- C7 amended: the error counter is created and registered once by
`RegisterOperatorMetrics` (which hands it to the handler), but no code path
of `Handle` increments it: every effect trace is free of
`incrementErrorCounter`, even when the reconciliation fails. -/
theorem error_counter_never_incremented :
    (∀ (h : Handler) (store : Store) (e : Event),
        Effect.incrementErrorCounter ∉ (Handler.Handle h store e).2) ∧
    (∀ (r : Registry) (m : Metrics) (r' : Registry),
        RegisterOperatorMetrics r = .ok (m, r') →
          m.operatorErrors = operatorErrorsCounter ∧
          r'.registered = operatorErrorsCounter.name :: r.registered) := by
  constructor
  · intro h store e
    obtain ⟨obj, del⟩ := e
    cases obj with
    | clusterAutoscaler ca =>
      cases del
      · cases hc : store.createResult with
        | ok => simp [Handler.Handle, hc]
        | otherError m => simp [Handler.Handle, hc]
        | alreadyExists =>
          simp only [Handler.Handle, hc, updateAutoscaler]
          cases hgr : store.getResult with
          | err m => simp
          | ok fetched =>
            cases store.updateResult <;> simp [deepEqualSpecWithPtr]
      · simp [Handler.Handle]
    | other k => simp [Handler.Handle]
  · intro r m r' hreg
    unfold RegisterOperatorMetrics at hreg
    split at hreg
    · exact absurd hreg (by simp)
    · obtain ⟨hm, hr⟩ := Prod.mk.injEq .. ▸ (Except.ok.injEq .. ▸ hreg)
      exact ⟨by rw [← hm], by rw [← hr]⟩

/-- Witness for C7's amended theorem: a failing pass leaves the trace free of
counter increments, and registration over an empty registry registers exactly
the operator-errors counter. -/
theorem error_counter_never_incremented_witness :
    Effect.incrementErrorCounter ∉
      (Handler.Handle handlerEx { createResult := .otherError "boom" }
        { object := .clusterAutoscaler caEx, deleted := false }).2 ∧
    ({ registered := [operatorErrorsCounter.name] } : Registry).registered =
      operatorErrorsCounter.name :: ({} : Registry).registered :=
  ⟨error_counter_never_incremented.1 handlerEx { createResult := .otherError "boom" }
      { object := .clusterAutoscaler caEx, deleted := false },
   (error_counter_never_incremented.2 {} { operatorErrors := operatorErrorsCounter }
      { registered := [operatorErrorsCounter.name] } rfl).2⟩

end autoscaler

namespace clusterautoscaler

theorem isPrefixOf_append_self (p v : List Char) : p.isPrefixOf (p ++ v) = true := by
  induction p with
  | nil => simp [List.isPrefixOf]
  | cons a as ih => simp [List.isPrefixOf, ih]

theorem isPrefixOf_append_eq_false (p q v : List Char)
    (h : (p.take q.length).isPrefixOf q = false) :
    p.isPrefixOf (q ++ v) = false := by
  induction p generalizing q with
  | nil => simp [List.isPrefixOf] at h
  | cons a as ih =>
    cases q with
    | nil => simp [List.isPrefixOf] at h
    | cons b bs =>
      simp only [List.length_cons, List.take_succ_cons, List.isPrefixOf, List.cons_append] at h ⊢
      cases hab : a == b with
      | false => simp [hab]
      | true => simp only [hab, Bool.true_and] at h ⊢; exact ih bs h

theorem flagCount_append (xs ys : List String) (fl : String) :
    flagCount (xs ++ ys) fl = flagCount xs fl + flagCount ys fl := by
  simp [flagCount, List.filter_append]

theorem flagCount_optFlag_self {α : Type} (fl : String) (fmt : α → String) (o : Option α) :
    flagCount (optFlag fl fmt o) fl = if o.isSome then 1 else 0 := by
  cases o with
  | none => rfl
  | some v =>
    simp [optFlag, flagCount, String.data_append, isPrefixOf_append_self]

theorem flagCount_optFlag_ne {α : Type} (fl q : String) (fmt : α → String) (o : Option α)
    (h : (fl.data.take q.data.length).isPrefixOf q.data = false) :
    flagCount (optFlag q fmt o) fl = 0 := by
  cases o with
  | none => rfl
  | some v =>
    simp [optFlag, flagCount, String.data_append, isPrefixOf_append_eq_false _ _ _ h]

theorem flagCount_gpu_ne (fl : String) (gpus : List GPULimit)
    (h : (fl.data.take ("--gpu-total=".data.length)).isPrefixOf ("--gpu-total=".data) = false) :
    flagCount (gpus.map
      (fun g => "--gpu-total=" ++ g.type ++ ":" ++ toString g.min ++ ":" ++ toString g.max))
      fl = 0 := by
  induction gpus with
  | nil => rfl
  | cons g gs ih =>
    have harg : fl.data.isPrefixOf
        (("--gpu-total=" ++ g.type ++ ":" ++ toString g.min ++ ":" ++ toString g.max).data) =
        false := by
      simp only [String.data_append, List.append_assoc]
      exact isPrefixOf_append_eq_false _ _ _ h
    simp only [List.map_cons, flagCount, List.filter_cons, harg, Bool.false_eq_true,
      if_false, reduceIte]
    exact ih

theorem flagCount_gpu_self (gpus : List GPULimit) :
    flagCount (gpus.map
      (fun g => "--gpu-total=" ++ g.type ++ ":" ++ toString g.min ++ ":" ++ toString g.max))
      "--gpu-total=" = gpus.length := by
  induction gpus with
  | nil => rfl
  | cons g gs ih =>
    have harg : ("--gpu-total=".data).isPrefixOf
        (("--gpu-total=" ++ g.type ++ ":" ++ toString g.min ++ ":" ++ toString g.max).data) =
        true := by
      simp only [String.data_append, List.append_assoc]
      exact isPrefixOf_append_self _ _
    simp only [List.map_cons, flagCount, List.filter_cons, harg, if_true, List.length_cons, reduceIte]
    simpa [flagCount] using ih

theorem flagCount_settings_ne (fl : String) (cfg : Config)
    (h1 : (fl.data.take ("--namespace=".data.length)).isPrefixOf ("--namespace=".data) = false)
    (h2 : (fl.data.take ("--cloud-provider=".data.length)).isPrefixOf
        ("--cloud-provider=".data) = false) :
    flagCount ["--namespace=" ++ cfg.ns, "--cloud-provider=" ++ cfg.cloudProvider] fl = 0 := by
  have ha := isPrefixOf_append_eq_false fl.data ("--namespace=".data) cfg.ns.data h1
  have hb := isPrefixOf_append_eq_false fl.data ("--cloud-provider=".data) cfg.cloudProvider.data h2
  simp only [flagCount, String.data_append, List.filter_cons, ha, hb, Bool.false_eq_true,
    if_false, reduceIte, List.filter_nil, List.length_nil]

/-- Flag count for `--scale-down-delay-after-add=`: one when the field is set, zero otherwise. -/
theorem flagCount_delayAfterAdd (ca : ClusterAutoscaler) (cfg : Config) :
    flagCount (AutoscalerArgs ca cfg) "--scale-down-delay-after-add=" =
      if (ca.spec.scaleDown.bind fun sd => sd.delayAfterAdd).isSome then 1 else 0 := by
  unfold AutoscalerArgs optionalArgs
  simp only [flagCount_append]
  rw [flagCount_optFlag_self,
    flagCount_optFlag_ne _ _ _ _ (by decide),
    flagCount_optFlag_ne _ _ _ _ (by decide),
    flagCount_optFlag_ne _ _ _ _ (by decide),
    flagCount_optFlag_ne _ _ _ _ (by decide),
    flagCount_optFlag_ne _ _ _ _ (by decide),
    flagCount_optFlag_ne _ _ _ _ (by decide),
    flagCount_gpu_ne _ _ (by decide),
    flagCount_settings_ne _ cfg (by decide) (by decide)]
  omega

/-- Flag count for `--scale-down-unneeded-time=`: one when the field is set, zero otherwise. -/
theorem flagCount_unneededTime (ca : ClusterAutoscaler) (cfg : Config) :
    flagCount (AutoscalerArgs ca cfg) "--scale-down-unneeded-time=" =
      if (ca.spec.scaleDown.bind fun sd => sd.unneededTime).isSome then 1 else 0 := by
  unfold AutoscalerArgs optionalArgs
  simp only [flagCount_append]
  rw [flagCount_optFlag_self,
    flagCount_optFlag_ne _ _ _ _ (by decide),
    flagCount_optFlag_ne _ _ _ _ (by decide),
    flagCount_optFlag_ne _ _ _ _ (by decide),
    flagCount_optFlag_ne _ _ _ _ (by decide),
    flagCount_optFlag_ne _ _ _ _ (by decide),
    flagCount_optFlag_ne _ _ _ _ (by decide),
    flagCount_gpu_ne _ _ (by decide),
    flagCount_settings_ne _ cfg (by decide) (by decide)]
  omega

/-- Flag count for `--expendable-pods-priority-cutoff=`: one when the field is set, zero otherwise. -/
theorem flagCount_priorityCutoff (ca : ClusterAutoscaler) (cfg : Config) :
    flagCount (AutoscalerArgs ca cfg) "--expendable-pods-priority-cutoff=" =
      if ca.spec.podPriorityThreshold.isSome then 1 else 0 := by
  unfold AutoscalerArgs optionalArgs
  simp only [flagCount_append]
  rw [flagCount_optFlag_self,
    flagCount_optFlag_ne _ _ _ _ (by decide),
    flagCount_optFlag_ne _ _ _ _ (by decide),
    flagCount_optFlag_ne _ _ _ _ (by decide),
    flagCount_optFlag_ne _ _ _ _ (by decide),
    flagCount_optFlag_ne _ _ _ _ (by decide),
    flagCount_optFlag_ne _ _ _ _ (by decide),
    flagCount_gpu_ne _ _ (by decide),
    flagCount_settings_ne _ cfg (by decide) (by decide)]
  omega

/-- Flag count for `--max-graceful-termination-sec=`: one when the field is set, zero otherwise. -/
theorem flagCount_gracePeriod (ca : ClusterAutoscaler) (cfg : Config) :
    flagCount (AutoscalerArgs ca cfg) "--max-graceful-termination-sec=" =
      if ca.spec.maxPodGracePeriod.isSome then 1 else 0 := by
  unfold AutoscalerArgs optionalArgs
  simp only [flagCount_append]
  rw [flagCount_optFlag_self,
    flagCount_optFlag_ne _ _ _ _ (by decide),
    flagCount_optFlag_ne _ _ _ _ (by decide),
    flagCount_optFlag_ne _ _ _ _ (by decide),
    flagCount_optFlag_ne _ _ _ _ (by decide),
    flagCount_optFlag_ne _ _ _ _ (by decide),
    flagCount_optFlag_ne _ _ _ _ (by decide),
    flagCount_gpu_ne _ _ (by decide),
    flagCount_settings_ne _ cfg (by decide) (by decide)]
  omega

/-- Flag count for `--cores-total=`: one when the field is set, zero otherwise. -/
theorem flagCount_coresTotal (ca : ClusterAutoscaler) (cfg : Config) :
    flagCount (AutoscalerArgs ca cfg) "--cores-total=" =
      if (ca.spec.resourceLimits.bind fun rl => rl.cores).isSome then 1 else 0 := by
  unfold AutoscalerArgs optionalArgs
  simp only [flagCount_append]
  rw [flagCount_optFlag_self,
    flagCount_optFlag_ne _ _ _ _ (by decide),
    flagCount_optFlag_ne _ _ _ _ (by decide),
    flagCount_optFlag_ne _ _ _ _ (by decide),
    flagCount_optFlag_ne _ _ _ _ (by decide),
    flagCount_optFlag_ne _ _ _ _ (by decide),
    flagCount_optFlag_ne _ _ _ _ (by decide),
    flagCount_gpu_ne _ _ (by decide),
    flagCount_settings_ne _ cfg (by decide) (by decide)]
  omega

/-- Flag count for `--memory-total=`: one when the field is set, zero otherwise. -/
theorem flagCount_memoryTotal (ca : ClusterAutoscaler) (cfg : Config) :
    flagCount (AutoscalerArgs ca cfg) "--memory-total=" =
      if (ca.spec.resourceLimits.bind fun rl => rl.memory).isSome then 1 else 0 := by
  unfold AutoscalerArgs optionalArgs
  simp only [flagCount_append]
  rw [flagCount_optFlag_self,
    flagCount_optFlag_ne _ _ _ _ (by decide),
    flagCount_optFlag_ne _ _ _ _ (by decide),
    flagCount_optFlag_ne _ _ _ _ (by decide),
    flagCount_optFlag_ne _ _ _ _ (by decide),
    flagCount_optFlag_ne _ _ _ _ (by decide),
    flagCount_optFlag_ne _ _ _ _ (by decide),
    flagCount_gpu_ne _ _ (by decide),
    flagCount_settings_ne _ cfg (by decide) (by decide)]
  omega

/-- Flag count for `--max-nodes-total=`: one when the field is set, zero otherwise. -/
theorem flagCount_maxNodesTotal (ca : ClusterAutoscaler) (cfg : Config) :
    flagCount (AutoscalerArgs ca cfg) "--max-nodes-total=" =
      if (ca.spec.resourceLimits.bind fun rl => rl.maxNodesTotal).isSome then 1 else 0 := by
  unfold AutoscalerArgs optionalArgs
  simp only [flagCount_append]
  rw [flagCount_optFlag_self,
    flagCount_optFlag_ne _ _ _ _ (by decide),
    flagCount_optFlag_ne _ _ _ _ (by decide),
    flagCount_optFlag_ne _ _ _ _ (by decide),
    flagCount_optFlag_ne _ _ _ _ (by decide),
    flagCount_optFlag_ne _ _ _ _ (by decide),
    flagCount_optFlag_ne _ _ _ _ (by decide),
    flagCount_gpu_ne _ _ (by decide),
    flagCount_settings_ne _ cfg (by decide) (by decide)]
  omega

/-- Flag count for `--gpu-total=`: one argument per configured GPU limit. -/
theorem flagCount_gpuTotal (ca : ClusterAutoscaler) (cfg : Config) :
    flagCount (AutoscalerArgs ca cfg) "--gpu-total=" =
      ((ca.spec.resourceLimits.map fun rl => rl.gpus).getD []).length := by
  unfold AutoscalerArgs optionalArgs
  simp only [flagCount_append]
  rw [flagCount_gpu_self,
    flagCount_optFlag_ne _ _ _ _ (by decide),
    flagCount_optFlag_ne _ _ _ _ (by decide),
    flagCount_optFlag_ne _ _ _ _ (by decide),
    flagCount_optFlag_ne _ _ _ _ (by decide),
    flagCount_optFlag_ne _ _ _ _ (by decide),
    flagCount_optFlag_ne _ _ _ _ (by decide),
    flagCount_optFlag_ne _ _ _ _ (by decide),
    flagCount_settings_ne _ cfg (by decide) (by decide)]
  omega


/-- C4: each optional configuration field yields exactly one flag iff set,
with the exact formatted value; unset fields yield no flag at all. -/
theorem autoscalerArgs_flags (ca : ClusterAutoscaler) (cfg : Config) :
    (flagCount (AutoscalerArgs ca cfg) "--scale-down-delay-after-add=" =
       if (ca.spec.scaleDown.bind fun sd => sd.delayAfterAdd).isSome then 1 else 0) ∧
    (∀ v, (ca.spec.scaleDown.bind fun sd => sd.delayAfterAdd) = some v →
       ("--scale-down-delay-after-add=" ++ v) ∈ AutoscalerArgs ca cfg) ∧
    (flagCount (AutoscalerArgs ca cfg) "--scale-down-unneeded-time=" =
       if (ca.spec.scaleDown.bind fun sd => sd.unneededTime).isSome then 1 else 0) ∧
    (∀ v, (ca.spec.scaleDown.bind fun sd => sd.unneededTime) = some v →
       ("--scale-down-unneeded-time=" ++ v) ∈ AutoscalerArgs ca cfg) ∧
    (flagCount (AutoscalerArgs ca cfg) "--expendable-pods-priority-cutoff=" =
       if ca.spec.podPriorityThreshold.isSome then 1 else 0) ∧
    (∀ i, ca.spec.podPriorityThreshold = some i →
       ("--expendable-pods-priority-cutoff=" ++ toString i) ∈ AutoscalerArgs ca cfg) ∧
    (flagCount (AutoscalerArgs ca cfg) "--max-graceful-termination-sec=" =
       if ca.spec.maxPodGracePeriod.isSome then 1 else 0) ∧
    (∀ i, ca.spec.maxPodGracePeriod = some i →
       ("--max-graceful-termination-sec=" ++ toString i) ∈ AutoscalerArgs ca cfg) ∧
    (flagCount (AutoscalerArgs ca cfg) "--cores-total=" =
       if (ca.spec.resourceLimits.bind fun rl => rl.cores).isSome then 1 else 0) ∧
    (∀ r, (ca.spec.resourceLimits.bind fun rl => rl.cores) = some r →
       ("--cores-total=" ++ fmtRange r) ∈ AutoscalerArgs ca cfg) ∧
    (flagCount (AutoscalerArgs ca cfg) "--memory-total=" =
       if (ca.spec.resourceLimits.bind fun rl => rl.memory).isSome then 1 else 0) ∧
    (∀ r, (ca.spec.resourceLimits.bind fun rl => rl.memory) = some r →
       ("--memory-total=" ++ fmtRange r) ∈ AutoscalerArgs ca cfg) ∧
    (flagCount (AutoscalerArgs ca cfg) "--max-nodes-total=" =
       if (ca.spec.resourceLimits.bind fun rl => rl.maxNodesTotal).isSome then 1 else 0) ∧
    (∀ i, (ca.spec.resourceLimits.bind fun rl => rl.maxNodesTotal) = some i →
       ("--max-nodes-total=" ++ toString i) ∈ AutoscalerArgs ca cfg) ∧
    (flagCount (AutoscalerArgs ca cfg) "--gpu-total=" =
       ((ca.spec.resourceLimits.map fun rl => rl.gpus).getD []).length) ∧
    (∀ g, g ∈ (ca.spec.resourceLimits.map fun rl => rl.gpus).getD [] →
       ("--gpu-total=" ++ g.type ++ ":" ++ toString g.min ++ ":" ++ toString g.max) ∈
         AutoscalerArgs ca cfg) := by
  refine ⟨flagCount_delayAfterAdd ca cfg, ?_, flagCount_unneededTime ca cfg, ?_,
    flagCount_priorityCutoff ca cfg, ?_, flagCount_gracePeriod ca cfg, ?_,
    flagCount_coresTotal ca cfg, ?_, flagCount_memoryTotal ca cfg, ?_,
    flagCount_maxNodesTotal ca cfg, ?_, flagCount_gpuTotal ca cfg, ?_⟩
  · intro v hv; simp [AutoscalerArgs, optionalArgs, optFlag, hv]
  · intro v hv; simp [AutoscalerArgs, optionalArgs, optFlag, hv]
  · intro i hi; simp [AutoscalerArgs, optionalArgs, optFlag, hi]
  · intro i hi; simp [AutoscalerArgs, optionalArgs, optFlag, hi]
  · intro r hr; simp [AutoscalerArgs, optionalArgs, optFlag, hr]
  · intro r hr; simp [AutoscalerArgs, optionalArgs, optFlag, hr]
  · intro i hi; simp [AutoscalerArgs, optionalArgs, optFlag, hi]
  · intro g hg
    unfold AutoscalerArgs optionalArgs
    exact List.mem_append_left _ (List.mem_append_left _
      (List.mem_append_right _ (List.mem_map_of_mem _ hg)))


/-- Witness for C4 at the test fixture configuration. -/
theorem autoscalerArgs_flags_witness :
    ("--cores-total=" ++ fmtRange { min := 16, max := 32 }) ∈
      AutoscalerArgs NewClusterAutoscaler argsConfig ∧
    ("--max-nodes-total=" ++ toString (100 : Int)) ∈
      AutoscalerArgs NewClusterAutoscaler argsConfig :=
  ⟨(autoscalerArgs_flags NewClusterAutoscaler argsConfig).2.2.2.2.2.2.2.2.2.1
      { min := 16, max := 32 } rfl,
   (autoscalerArgs_flags NewClusterAutoscaler argsConfig).2.2.2.2.2.2.2.2.2.2.2.2.2.1
      (100 : Int) rfl⟩

end clusterautoscaler

namespace clusterautoscaler

/-- Validation of the modelled builder against `TestAutoscalerArgs`: every
expected argument is present and both expectedMissing flags are absent. -/
theorem autoscalerArgs_matches_TestAutoscalerArgs :
    includeString (AutoscalerArgs NewClusterAutoscaler argsConfig)
        "--scale-down-delay-after-add=60s" = true ∧
    includeString (AutoscalerArgs NewClusterAutoscaler argsConfig)
        "--scale-down-unneeded-time=10s" = true ∧
    includeString (AutoscalerArgs NewClusterAutoscaler argsConfig)
        "--expendable-pods-priority-cutoff=-10" = true ∧
    includeString (AutoscalerArgs NewClusterAutoscaler argsConfig)
        "--max-graceful-termination-sec=60" = true ∧
    includeString (AutoscalerArgs NewClusterAutoscaler argsConfig)
        "--cores-total=16:32" = true ∧
    includeString (AutoscalerArgs NewClusterAutoscaler argsConfig)
        "--max-nodes-total=100" = true ∧
    includeString (AutoscalerArgs NewClusterAutoscaler argsConfig)
        "--namespace=test" = true ∧
    includeString (AutoscalerArgs NewClusterAutoscaler argsConfig)
        "--cloud-provider=testProvider" = true ∧
    includesStringWithPrefix (AutoscalerArgs NewClusterAutoscaler argsConfig)
        "--scale-down-delay-after-delete" = false ∧
    includesStringWithPrefix (AutoscalerArgs NewClusterAutoscaler argsConfig)
        "--scale-down-delay-after-failure" = false := by
  decide

/-- Validation of the modelled predicate against the five cases of
`TestAvailableAndUpdated` (same fixtures, same expectations). -/
theorem availableAndUpdated_matches_TestAvailableAndUpdated :
    AvailableAndUpdated (testClient dep1) cfg1 = .ok true ∧
    AvailableAndUpdated (testClient dep1) cfg2 = .ok false ∧
    AvailableAndUpdated (testClient dep1) cfg3 = .ok true ∧
    AvailableAndUpdated (testClient {}) cfg1 = .ok false ∧
    AvailableAndUpdated (testClient dep2) cfg1 = .ok false := by
  refine ⟨by decide, by decide, by decide, by decide, by decide⟩

end clusterautoscaler
